import Mathlib

/-
  Verification of the Schema Catalog and Safe Query Facade
  (langchain/sql_database.py, class SQLDatabase).

  The embedding models the Python module shallowly: the driver connection is
  an external collaborator, so the outcome of each catalog or statement
  execution is passed in as data (a Cursor value, or an Except for fallible
  catalog fetches).  Python runtime values that flow through the executor are
  modelled by the inductive PyVal, and the dynamic-typing behaviour the code
  relies on (iterating strings, subscripting None) is modelled explicitly.
-/

namespace SqlDb

/-- Python runtime values observed by the facade: strings (as character
lists), integers, tuples, lists and None.  Other cell types behave like
vint for our purposes (not a str, not iterable). -/
inductive PyVal where
  | vstr (s : List Char)
  | vint (n : Int)
  | vtuple (xs : List PyVal)
  | vlist (xs : List PyVal)
  | vnone

/-- Structured payloads of the ValueError raises in the source.  The Python
messages interpolate a set whose repr order is unspecified, so the payload
carries the missing names explicitly instead. -/
inductive ValueErrorKind where
  | bothIncludeIgnore
  | includeMissing (missing : List String)
  | ignoreMissing (missing : List String)
  | tableNamesMissing (missing : List String)
  | invalidFetch
  deriving DecidableEq

/-- Python exception classes relevant to the facade: ValueError (raised by
the facade itself), TypeError and IndexError (raised by the runtime on the
dynamic-typing slips), and opaque driver errors from psycopg2. -/
inductive PyErr where
  | valueError (kind : ValueErrorKind)
  | typeError (msg : String)
  | indexError (msg : String)
  | driverError (msg : String)
  deriving DecidableEq

/-- Class test corresponding to "except ValueError". -/
def PyErr.isValueError : PyErr → Bool
  | .valueError _ => true
  | _ => false

/-- Rendered message of a ValueError, mirroring the f-strings of the source
(set braces written literally, elements in first-occurrence order). -/
def ValueErrorKind.message : ValueErrorKind → String
  | .bothIncludeIgnore => "Cannot specify both include_tables and ignore_tables"
  | .includeMissing missing =>
      "include_tables \x7b" ++ String.intercalate ", " missing ++ "\x7d not found in database"
  | .ignoreMissing missing =>
      "ignore_tables \x7b" ++ String.intercalate ", " missing ++ "\x7d not found in database"
  | .tableNamesMissing missing =>
      "table_names \x7b" ++ String.intercalate ", " missing ++ "\x7d not found in database"
  | .invalidFetch => "Fetch parameter must be either one or all"

/-- Message of an exception, as it would be interpolated by an f-string. -/
def PyErr.message : PyErr → String
  | .valueError k => k.message
  | .typeError m => m
  | .indexError m => m
  | .driverError m => m

/-- Python iteration over a value: a str yields its characters as
one-character strings, tuples and lists yield their elements, and any other
value raises TypeError.  This is the dynamic behaviour the truncation helper
depends on. -/
def pyIter : PyVal → Except PyErr (List PyVal)
  | .vstr s => .ok (s.map (fun c => .vstr [c]))
  | .vtuple xs => .ok xs
  | .vlist xs => .ok xs
  | .vint _ => .error (.typeError "int object is not iterable")
  | .vnone => .error (.typeError "NoneType object is not iterable")

/-- One cell of the truncation pass: e[:truncate_col] if isinstance(e, str)
else e (source line 210). -/
def truncateCell (tc : Nat) : PyVal → PyVal
  | .vstr s => .vstr (s.take tc)
  | v => v

/-- The loop body of _truncate_results: for each row of the iterable, build
tuple(e[:tc] if isinstance(e, str) else e for e in row), aborting with the
runtime error of the first non-iterable row. -/
def truncateRows (tc : Nat) : List PyVal → Except PyErr (List PyVal)
  | [] => .ok []
  | row :: rest => do
      let es ← pyIter row
      let tail ← truncateRows tc rest
      pure (PyVal.vtuple (es.map (truncateCell tc)) :: tail)

/-- Embeds SQLDatabase._truncate_results (source lines 207-211): iterate the
argument, truncating string cells of each row to at most tc characters. -/
def truncate_results (tc : Nat) (results : PyVal) : Except PyErr PyVal := do
  let rows ← pyIter results
  let out ← truncateRows tc rows
  pure (PyVal.vlist out)

/-- The slice of driver cursor state that run observes after executing a
statement: the column names of the result descriptor and the produced rows.
The Connection Provider is external, so this outcome is passed in as data. -/
structure Cursor where
  colnames : List String
  rows : List (List PyVal)

/-- The row-fetch gate of run (source line 196): a case-insensitive
substring test for "select" anywhere in the statement text. -/
def containsSelect (command : String) : Bool :=
  decide ("select".toList <:+: command.toList.map Char.toLower)

/-- The fetch branch of run (source lines 197-202): fetchall for "all"; for
"one", cursor.fetchone()[0], where fetchone on an empty result set yields
None and the subscript raises TypeError (and an empty first tuple would
raise IndexError); any other mode raises ValueError. -/
def fetchResult (cur : Cursor) (fetch : String) : Except PyErr PyVal :=
  if fetch = "all" then .ok (.vlist (cur.rows.map PyVal.vtuple))
  else if fetch = "one" then
    match cur.rows with
    | [] => .error (.typeError "NoneType object is not subscriptable")
    | row :: _ =>
      match row with
      | [] => .error (.indexError "tuple index out of range")
      | cell :: _ => .ok cell
  else .error (.valueError .invalidFetch)

/-- Embeds SQLDatabase.run (source lines 186-205): column names are taken
from the descriptor unconditionally; if the statement text passes the
"select" substring gate, the fetched result is passed through
_truncate_results and returned with the column-name tuple; otherwise the
pair of empty strings is returned without any fetch. -/
def run (tc : Nat) (cur : Cursor) (command : String) (fetch : String) :
    Except PyErr (PyVal × PyVal) := do
  let colnames := cur.colnames.map (fun n => PyVal.vstr n.toList)
  if containsSelect command then
    let result ← fetchResult cur fetch
    let result ← truncate_results tc result
    pure (PyVal.vtuple colnames, result)
  else
    pure (PyVal.vstr [], PyVal.vstr [])

/-- One record of the catalog attribute query of get_tables_dict:
(relname, attname, typname, oid). -/
structure AttRow where
  relname : String
  attname : String
  typname : String
  oid : Int
  deriving DecidableEq

/-- tables.setdefault(rec[0], []); tables[rec[0]].append(rec): insert one
record into an insertion-ordered dict keyed by relation name. -/
def insertRow (d : List (String × List AttRow)) (r : AttRow) :
    List (String × List AttRow) :=
  match d with
  | [] => [(r.relname, [r])]
  | (k, v) :: rest =>
      if k = r.relname then (k, v ++ [r]) :: rest
      else (k, v) :: insertRow rest r

/-- Embeds SQLDatabase.get_tables_dict (source lines 131-141): group the
catalog attribute records by relation name into an insertion-ordered
mapping, first-seen relation order preserved, attribute order preserved
within each relation. -/
def get_tables_dict (recs : List AttRow) : List (String × List AttRow) :=
  recs.foldl insertRow []

/-- The facade state built by SQLDatabase.__init__ that the specified
operations read. -/
structure View where
  all_tables : Finset String
  include_tables : Finset String
  ignore_tables : Finset String
  usable_tables : Finset String
  sample_rows_in_table_info : Int
  indexes_in_table_info : Bool
  custom_table_info : List (String × String)
  truncate_col : Nat
  deriving DecidableEq

/-- Embeds SQLDatabase.__init__ (source lines 15-85).  The catalog query
result (get_tables_list) is passed in as all_tables_list; parameter order
follows the source (ignore_tables before include_tables).  The isinstance
checks on sample_rows_in_table_info and custom_table_info are vacuous under
the typed embedding.  Checks appear in source order: the include/ignore
conflict first, then membership of include_tables and ignore_tables in the
catalog set, then the usable-table computation with its empty-set
fallback to the full catalog set. -/
def sqlDatabaseInit (all_tables_list : List String)
    (ignore_tables : List String) (include_tables : List String)
    (sample_rows_in_table_info : Int) (indexes_in_table_info : Bool)
    (custom_table_info : List (String × String)) (truncate_col : Nat) :
    Except PyErr View :=
  if include_tables ≠ [] ∧ ignore_tables ≠ [] then
    Except.error (.valueError .bothIncludeIgnore)
  else
    let all := all_tables_list.toFinset
    let inc := include_tables.toFinset
    let incMissing := (include_tables.filter (fun n => decide (n ∉ all))).dedup
    if inc ≠ ∅ ∧ incMissing ≠ [] then
      Except.error (.valueError (.includeMissing incMissing))
    else
      let ign := ignore_tables.toFinset
      let ignMissing := (ignore_tables.filter (fun n => decide (n ∉ all))).dedup
      if ign ≠ ∅ ∧ ignMissing ≠ [] then
        Except.error (.valueError (.ignoreMissing ignMissing))
      else
        let usable := if inc ≠ ∅ then inc else all \ ign
        Except.ok
          { all_tables := all
            include_tables := inc
            ignore_tables := ign
            usable_tables := if usable ≠ ∅ then usable else all
            sample_rows_in_table_info := sample_rows_in_table_info
            indexes_in_table_info := indexes_in_table_info
            custom_table_info := custom_table_info.filter (fun p => decide (p.1 ∈ all))
            truncate_col := truncate_col }

/-- Embeds SQLDatabase.get_usable_table_names (source lines 113-117):
the include set when non-empty, else the catalog set minus the ignore
set. -/
def get_usable_table_names (v : View) : Finset String :=
  if v.include_tables ≠ ∅ then v.include_tables
  else v.all_tables \ v.ignore_tables

/-- The SQL_template of get_table_info (source lines 172-173): a newline,
the CREATE TABLE text, three newlines, seventeen spaces, the sample block
in comment delimiters, three newlines. -/
def sqlTemplate (sql sample : String) : String :=
  "\n" ++ sql ++ "\n\n\n                 /*" ++ sample ++ "*/\n\n\n"

/-- One rendered column: attname, a space, typname (source line 180). -/
def renderColumn (a : AttRow) : String :=
  a.attname ++ " " ++ a.typname

/-- The CREATE TABLE text of one relation (source lines 177-181). -/
def createTableSql (t : String) (atts : List AttRow) : String :=
  "CREATE TABLE " ++ t ++ " (" ++ String.intercalate ",\n" (atts.map renderColumn) ++ ")"

/-- Embeds SQLDatabase.get_table_info (source lines 154-184).  The outcome
of the catalog attribute query behind get_tables_dict is passed in as
fetchOutcome (a driver error there propagates).  When table_names is given,
names outside the usable set raise ValueError; the source then rebinds
all_table_names to table_names (line 170) but that binding is never read
afterwards - the render loop iterates tables.keys(), the whole catalog
dict, so the embedding drops the dead rebinding. -/
def get_table_info (v : View) (fetchOutcome : Except PyErr (List AttRow))
    (table_names : Option (List String)) : Except PyErr String := do
  let recs ← fetchOutcome
  let tables := get_tables_dict recs
  let all_table_names := get_usable_table_names v
  match table_names with
  | some names =>
      let missing := (names.filter (fun n => decide (n ∉ all_table_names))).dedup
      if missing ≠ [] then
        throw (.valueError (.tableNamesMissing missing))
  | none => pure ()
  let create_tables := (tables.map (fun p => sqlTemplate (createTableSql p.1 p.2) ""))
  pure (String.intercalate "\n\n" create_tables)

/-- Embeds SQLDatabase.get_table_info_no_throw (source lines 214-228):
try get_table_info, except ValueError return the formatted message. -/
def get_table_info_no_throw (v : View) (fetchOutcome : Except PyErr (List AttRow))
    (table_names : Option (List String)) : Except PyErr String :=
  match get_table_info v fetchOutcome table_names with
  | .ok s => .ok s
  | .error e =>
      if e.isValueError then .ok ("Error: " ++ e.message)
      else .error e

/-- A two-table catalog used to evaluate concrete renders: relations t1 and
t2, one int4 column each. -/
def demoRecs : List AttRow :=
  [⟨"t1", "id", "int4", 11⟩, ⟨"t2", "id", "int4", 12⟩]

/-- The View produced by construction over catalog tables t1, t2 with
include_tables = [t1]. -/
def demoView : View :=
  { all_tables := ["t1", "t2"].toFinset
    include_tables := ["t1"].toFinset
    ignore_tables := ([] : List String).toFinset
    usable_tables := ["t1"].toFinset
    sample_rows_in_table_info := 3
    indexes_in_table_info := false
    custom_table_info := []
    truncate_col := 50 }


/-- In the Except monad, pure is ok. -/
@[simp] theorem except_pure_def {ε α : Type} (a : α) : (pure a : Except ε α) = Except.ok a := rfl

/-- A bound Except computation fails exactly when its first stage fails or
its first stage succeeds and the continuation fails. -/
theorem except_bind_eq_error {ε α β : Type} (e : Except ε α) (f : α → Except ε β) (err : ε) :
    (e >>= f) = Except.error err ↔
      e = Except.error err ∨ ∃ a, e = Except.ok a ∧ f a = Except.error err := by
  cases e <;> simp [Bind.bind, Except.bind]

/-- The View produced by construction over catalog a, b, c with
ignore_tables = [b]. -/
def c9View : View :=
  { all_tables := ["a", "b", "c"].toFinset
    include_tables := ([] : List String).toFinset
    ignore_tables := ["b"].toFinset
    usable_tables := ["a", "b", "c"].toFinset \ ["b"].toFinset
    sample_rows_in_table_info := 3
    indexes_in_table_info := false
    custom_table_info := []
    truncate_col := 50 }

/-- Truncating a list of well-formed rows (tuples) never fails and maps
truncateCell over every cell of every row. -/
theorem truncateRows_vtuple (tc : Nat) (rows : List (List PyVal)) :
    truncateRows tc (rows.map PyVal.vtuple) =
      Except.ok (rows.map (fun row => PyVal.vtuple (row.map (truncateCell tc)))) := by
  induction rows with
  | nil => rfl
  | cons r rs ih => simp [truncateRows, pyIter, ih, Bind.bind, Except.bind]

/-- pyIter only raises TypeError, never ValueError. -/
theorem pyIter_ne_valueError (v : PyVal) (k : ValueErrorKind) :
    pyIter v ≠ Except.error (PyErr.valueError k) := by
  cases v <;> simp [pyIter]

/-- truncateRows only raises errors coming from pyIter, never ValueError. -/
theorem truncateRows_ne_valueError (tc : Nat) (rows : List PyVal) (k : ValueErrorKind) :
    truncateRows tc rows ≠ Except.error (PyErr.valueError k) := by
  induction rows with
  | nil => simp [truncateRows]
  | cons r rs ih =>
    intro hc
    simp only [truncateRows] at hc
    rcases (except_bind_eq_error _ _ _).mp hc with h1 | ⟨es, hes, hc2⟩
    · exact pyIter_ne_valueError r k h1
    · rcases (except_bind_eq_error _ _ _).mp hc2 with h2 | ⟨tail, htail, hc3⟩
      · exact ih h2
      · simp at hc3

/-- truncate_results never raises ValueError. -/
theorem truncate_results_ne_valueError (tc : Nat) (results : PyVal) (k : ValueErrorKind) :
    truncate_results tc results ≠ Except.error (PyErr.valueError k) := by
  intro hc
  simp only [truncate_results] at hc
  rcases (except_bind_eq_error _ _ _).mp hc with h1 | ⟨rows, hrows, hc2⟩
  · exact pyIter_ne_valueError results k h1
  · rcases (except_bind_eq_error _ _ _).mp hc2 with h2 | ⟨out, hout, hc3⟩
    · exact truncateRows_ne_valueError tc rows k h2
    · simp at hc3

/-- When the substring gate fails, run returns the pair of empty strings, no
matter what the driver produced and no matter the fetch mode. -/
theorem run_gate_false (tc : Nat) (cur : Cursor) (command fetch : String)
    (h : containsSelect command = false) :
    run tc cur command fetch = Except.ok (PyVal.vstr [], PyVal.vstr []) := by
  simp [run, h]

/-- When the gate passes, fetch mode "all" returns the column-name tuple and
every row with truncateCell applied to each cell. -/
theorem run_all_eq (tc : Nat) (cur : Cursor) (command : String)
    (h : containsSelect command = true) :
    run tc cur command "all" =
      Except.ok (PyVal.vtuple (cur.colnames.map (fun n => PyVal.vstr n.toList)),
        PyVal.vlist (cur.rows.map (fun row => PyVal.vtuple (row.map (truncateCell tc))))) := by
  simp [run, h, fetchResult, truncate_results, pyIter, truncateRows_vtuple,
    Bind.bind, Except.bind]

/-- The fetch-one branch only yields ok, TypeError or IndexError, never
ValueError. -/
theorem fetchResult_one_ne_valueError (cur : Cursor) (k : ValueErrorKind) :
    fetchResult cur "one" ≠ Except.error (PyErr.valueError k) := by
  simp only [fetchResult, reduceIte]
  cases cur.rows with
  | nil => simp
  | cons row rest =>
    cases row with
    | nil => simp
    | cons cell cells => simp

/-- When the gate passes, fetch mode "one" never raises ValueError: its
errors are the runtime TypeError and IndexError slips. -/
theorem run_one_ne_valueError (tc : Nat) (cur : Cursor) (command : String)
    (h : containsSelect command = true) (k : ValueErrorKind) :
    run tc cur command "one" ≠ Except.error (PyErr.valueError k) := by
  intro hc
  simp only [run, h, if_true] at hc
  rcases (except_bind_eq_error _ _ _).mp hc with h1 | ⟨cell, hcell, hc2⟩
  · exact fetchResult_one_ne_valueError cur k h1
  · rcases (except_bind_eq_error _ _ _).mp hc2 with h2 | ⟨out, hout, hc3⟩
    · exact truncate_results_ne_valueError tc cell k h2
    · simp at hc3

/-- When the gate passes and the fetch mode is neither all nor one, run
raises the invalid-fetch ValueError. -/
theorem run_bad_fetch (tc : Nat) (cur : Cursor) (command fetch : String)
    (h : containsSelect command = true) (ha : fetch ≠ "all") (ho : fetch ≠ "one") :
    run tc cur command fetch =
      Except.error (PyErr.valueError ValueErrorKind.invalidFetch) := by
  simp [run, h, fetchResult, ha, ho, Bind.bind, Except.bind]


/-- C2: the claim says run with fetch mode "one" on a select-gated statement
with at least one row returns exactly the first cell of the first row.  The
code extracts that cell (cursor.fetchone()[0]) but then feeds the scalar to
_truncate_results, which iterates it as if it were a row list: a non-string
first cell (here the integer 1 of SELECT 1) raises TypeError, and a string
first cell is shredded into a list of one-character tuples instead of being
returned. -/
theorem c2_fetch_one_misapplies_truncation :
    run 50 ⟨["c"], [[PyVal.vint 1]]⟩ "SELECT 1" "one"
      = Except.error (PyErr.typeError "int object is not iterable") ∧
    run 50 ⟨["c"], [[PyVal.vstr "ab".toList]]⟩ "SELECT x" "one"
      = Except.ok (PyVal.vtuple [PyVal.vstr ['c']],
          PyVal.vlist [PyVal.vtuple [PyVal.vstr ['a']], PyVal.vtuple [PyVal.vstr ['b']]]) :=
  ⟨rfl, rfl⟩

/-- C3: for every statement whose text has no case-insensitive "select"
substring and for every fetch mode, run returns the empty marker (the pair
of empty strings).  The result is quantified over every driver outcome
(arbitrary column names and rows) and every fetch-mode string, so no row
fetch and no fetch-mode validation can have been attempted. -/
theorem c3_no_select_gate_empty_marker (tc : Nat) (cur : Cursor)
    (command fetch : String) (h : containsSelect command = false) :
    run tc cur command fetch = Except.ok (PyVal.vstr [], PyVal.vstr []) :=
  run_gate_false tc cur command fetch h

/-- Witness for C3 at the update statement of the spec, with a driver
outcome that did produce a row and a bogus fetch mode. -/
theorem c3_no_select_gate_empty_marker_witness :
    containsSelect "UPDATE t SET x=1" = false ∧
    run 50 ⟨["a"], [[PyVal.vint 7]]⟩ "UPDATE t SET x=1" "bogus"
      = Except.ok (PyVal.vstr [], PyVal.vstr []) :=
  ⟨by decide,
   c3_no_select_gate_empty_marker 50 ⟨["a"], [[PyVal.vint 7]]⟩ "UPDATE t SET x=1" "bogus"
     (by decide)⟩

/-- C4: run with fetch mode "all" returns every row with truncateCell
applied to each cell in place (so row arity and cell order are preserved),
where truncateCell shortens a string cell to its prefix of length at most
truncate_col, with no ellipsis marker, and leaves every non-string cell
unchanged. -/
theorem c4_fetch_all_truncation (tc : Nat) (cur : Cursor) (command : String)
    (h : containsSelect command = true) :
    run tc cur command "all" =
      Except.ok (PyVal.vtuple (cur.colnames.map (fun n => PyVal.vstr n.toList)),
        PyVal.vlist (cur.rows.map (fun row => PyVal.vtuple (row.map (truncateCell tc))))) ∧
    (∀ s : List Char, truncateCell tc (PyVal.vstr s) = PyVal.vstr (s.take tc) ∧
      (s.take tc).length ≤ tc ∧ s.take tc <+: s) ∧
    ∀ v : PyVal, (∀ s : List Char, v ≠ PyVal.vstr s) → truncateCell tc v = v := by
  refine ⟨run_all_eq tc cur command h,
    fun s => ⟨rfl, ?_, List.take_prefix tc s⟩, fun v hv => ?_⟩
  · rw [ List.length_take]
    exact min_le_left _ _
  · cases v with
    | vstr s => exact absurd rfl (hv s)
    | vint n => rfl
    | vtuple xs => rfl
    | vlist xs => rfl
    | vnone => rfl

/-- Witness for C4: the spec example, a ten-character string cell and an
integer cell with truncate_col 5: the string cell comes back as its
five-character prefix, the integer unchanged, arity preserved. -/
theorem c4_fetch_all_truncation_witness :
    containsSelect "SELECT * FROM t" = true ∧
    run 5 ⟨["s", "n"], [[PyVal.vstr "abcdefghij".toList, PyVal.vint 5]]⟩
        "SELECT * FROM t" "all"
      = Except.ok (PyVal.vtuple [PyVal.vstr ['s'], PyVal.vstr ['n']],
          PyVal.vlist [PyVal.vtuple [PyVal.vstr "abcde".toList, PyVal.vint 5]]) :=
  ⟨by decide,
   (c4_fetch_all_truncation 5 ⟨["s", "n"], [[PyVal.vstr "abcdefghij".toList, PyVal.vint 5]]⟩
     "SELECT * FROM t" (by decide)).1⟩

/-- C7: run raises the invalid-fetch ValueError exactly when the statement
text passes the case-insensitive "select" substring gate and the fetch mode
is neither "all" nor "one"; when the gate fails, the fetch mode is never
validated and no such error is raised for any fetch value. -/
theorem c7_invalid_fetch_mode_iff (tc : Nat) (cur : Cursor) (command fetch : String) :
    run tc cur command fetch = Except.error (PyErr.valueError ValueErrorKind.invalidFetch)
      ↔ containsSelect command = true ∧ fetch ≠ "all" ∧ fetch ≠ "one" := by
  constructor
  · intro hrun
    by_cases hg : containsSelect command = true
    · refine ⟨hg, ?_, ?_⟩
      · intro hf
        subst hf
        rw [run_all_eq tc cur command hg] at hrun
        cases hrun
      · intro hf
        subst hf
        exact run_one_ne_valueError tc cur command hg ValueErrorKind.invalidFetch hrun
    · rw [run_gate_false tc cur command fetch (by simpa using hg)] at hrun
      cases hrun
  · rintro ⟨hg, ha, ho⟩
    exact run_bad_fetch tc cur command fetch hg ha ho

/-- C10: when the gate passes but the driver produced zero rows, run with
fetch mode "one" subscripts the None returned by fetchone() and fails with
the untyped TypeError, rather than returning the empty marker, an empty
cell, or an error of the specified taxonomy. -/
theorem c10_fetch_one_empty_result_type_error (tc : Nat) (colnames : List String)
    (command : String) (h : containsSelect command = true) :
    run tc ⟨colnames, []⟩ command "one" =
      Except.error (PyErr.typeError "NoneType object is not subscriptable") := by
  simp [run, h, fetchResult, Bind.bind, Except.bind]

/-- Witness for C10 at SELECT 1 over an empty result set. -/
theorem c10_fetch_one_empty_result_type_error_witness :
    containsSelect "SELECT 1" = true ∧
    run 50 ⟨["col"], []⟩ "SELECT 1" "one" =
      Except.error (PyErr.typeError "NoneType object is not subscriptable") :=
  ⟨by decide, c10_fetch_one_empty_result_type_error 50 ["col"] "SELECT 1" (by decide)⟩


/-- C5: each rendered table block consists of the header CREATE TABLE name
followed by an opening parenthesis, the columns rendered as name space type
joined by comma-newline, the closing parenthesis, and then the empty
reserved comment block of the template (three newlines, seventeen spaces,
an empty comment, three newlines); the blocks are joined by one blank line.
The sample block is empty for every view, in particular when
sample_rows_in_table_info is zero.  The second conjunct instantiates the
format at the two-column table of the spec example. -/
theorem c5_rendered_block_format (v : View) (recs : List AttRow) :
    get_table_info v (Except.ok recs) none =
      Except.ok (String.intercalate "\n\n" ((get_tables_dict recs).map (fun p =>
        "\n" ++ ("CREATE TABLE " ++ p.1 ++ " ("
          ++ String.intercalate ",\n" (p.2.map (fun a => a.attname ++ " " ++ a.typname))
          ++ ")") ++ "\n\n\n                 /*" ++ "" ++ "*/\n\n\n"))) ∧
    get_table_info v (Except.ok [⟨"t", "id", "int4", 1⟩, ⟨"t", "name", "varchar", 2⟩]) none =
      Except.ok ("\nCREATE TABLE t (id int4,\nname varchar)\n\n\n                 /**/\n\n\n") :=
  ⟨rfl, rfl⟩

/-- C1: the claim says get_table_info renders exactly the resolved table
sequence (the requested names, else the usable set) and nothing outside it.
The code validates the requested names against the usable set but then
iterates the whole catalog dict (tables.keys()), so the render includes
every catalog table.  Here the view usable set is exactly t1, yet the
output of both the default call and the explicit request for t1 contains a
CREATE TABLE t2 block. -/
theorem c1_renders_tables_outside_resolved_set :
    sqlDatabaseInit ["t1", "t2"] [] ["t1"] 3 false [] 50 = Except.ok demoView ∧
    get_usable_table_names demoView = ["t1"].toFinset ∧
    "t2" ∉ get_usable_table_names demoView ∧
    (∃ out, get_table_info demoView (Except.ok demoRecs) none = Except.ok out ∧
      decide ("CREATE TABLE t2".toList <:+: out.toList) = true) ∧
    (∃ out, get_table_info demoView (Except.ok demoRecs) (some ["t1"]) = Except.ok out ∧
      decide ("CREATE TABLE t2".toList <:+: out.toList) = true) := by
  refine ⟨rfl, by decide, by decide, ⟨_, rfl, by decide⟩, ⟨_, rfl, by decide⟩⟩


/-- C6: requesting table names of which some are outside the usable set
makes get_table_info fail with the ValueError carrying every missing name;
get_table_info_no_throw returns the literal Error-prefixed message exactly
for the ValueError class, and every other error (such as a driver error
from the catalog query) propagates unchanged through the safe variant. -/
theorem c6_unknown_table_error_and_safe_variant (v : View)
    (fetchOutcome : Except PyErr (List AttRow)) (names : List String) :
    ((names.filter (fun n => decide (n ∉ get_usable_table_names v))).dedup ≠ [] →
      ∀ recs, fetchOutcome = Except.ok recs →
        get_table_info v fetchOutcome (some names) =
          Except.error (PyErr.valueError (ValueErrorKind.tableNamesMissing
            ((names.filter (fun n => decide (n ∉ get_usable_table_names v))).dedup)))) ∧
    (∀ tn k, get_table_info v fetchOutcome tn = Except.error (PyErr.valueError k) →
      get_table_info_no_throw v fetchOutcome tn = Except.ok ("Error: " ++ k.message)) ∧
    (∀ tn e, get_table_info v fetchOutcome tn = Except.error e → e.isValueError = false →
      get_table_info_no_throw v fetchOutcome tn = Except.error e) := by
  refine ⟨?_, ?_, ?_⟩
  · intro hne recs hrec
    subst hrec
    simp only [get_table_info, throw, throwThe, MonadExceptOf.throw, Bind.bind, Except.bind]
    rw [if_pos hne]
  · intro tn k hk
    simp [get_table_info_no_throw, hk, PyErr.isValueError, PyErr.message]
  · intro tn e he hval
    simp [get_table_info_no_throw, he, hval]

/-- Witness for C6: with usable set t1, requesting the unknown name tX
fails with the missing list tX; the safe variant turns exactly that error
into the literal error string; a driver error is propagated unchanged by
the safe variant. -/
theorem c6_unknown_table_error_and_safe_variant_witness :
    get_table_info demoView (Except.ok demoRecs) (some ["tX"]) =
      Except.error (PyErr.valueError (ValueErrorKind.tableNamesMissing ["tX"])) ∧
    get_table_info_no_throw demoView (Except.ok demoRecs) (some ["tX"]) =
      Except.ok ("Error: table_names \x7btX\x7d not found in database") ∧
    get_table_info_no_throw demoView (Except.error (PyErr.driverError "boom")) none =
      Except.error (PyErr.driverError "boom") := by
  have h1 := (c6_unknown_table_error_and_safe_variant demoView (Except.ok demoRecs) ["tX"]).1
    (by decide) demoRecs rfl
  refine ⟨h1, ?_, ?_⟩
  · exact (c6_unknown_table_error_and_safe_variant demoView (Except.ok demoRecs) ["tX"]).2.1
      (some ["tX"]) _ h1
  · exact (c6_unknown_table_error_and_safe_variant demoView
        (Except.error (PyErr.driverError "boom")) []).2.2 none _ rfl rfl

/-- C8: whenever both include_tables and ignore_tables are non-empty,
construction fails with the configuration ValueError, for every catalog
content and every other parameter, so before any table-set computation or
membership validation can matter. -/
theorem c8_include_and_ignore_config_error
    (all_tables_list ignore_tables include_tables : List String)
    (sample : Int) (idx : Bool) (cti : List (String × String)) (tc : Nat)
    (hinc : include_tables ≠ []) (hign : ignore_tables ≠ []) :
    sqlDatabaseInit all_tables_list ignore_tables include_tables sample idx cti tc =
      Except.error (PyErr.valueError ValueErrorKind.bothIncludeIgnore) := by
  simp [sqlDatabaseInit, hinc, hign]

/-- Witness for C8: the include set is not even a subset of the catalog,
yet the conflict error wins because it is checked first. -/
theorem c8_include_and_ignore_config_error_witness :
    (["c"] : List String) ≠ [] ∧ (["b"] : List String) ≠ [] ∧
    sqlDatabaseInit ["a"] ["b"] ["c"] 3 false [] 50 =
      Except.error (PyErr.valueError ValueErrorKind.bothIncludeIgnore) :=
  ⟨by decide, by decide, c8_include_and_ignore_config_error ["a"] ["b"] ["c"] 3 false [] 50
    (by decide) (by decide)⟩

/-- C9: for every successfully constructed view, get_usable_table_names
returns the include set verbatim when it is non-empty and the catalog set
minus the ignore set otherwise, and in both cases the result is a subset of
the catalog set (because construction validated membership). -/
theorem c9_usable_table_names (all_tables_list ignore_tables include_tables : List String)
    (sample : Int) (idx : Bool) (cti : List (String × String)) (tc : Nat) (v : View)
    (h : sqlDatabaseInit all_tables_list ignore_tables include_tables sample idx cti tc
          = Except.ok v) :
    get_usable_table_names v =
      (if include_tables.toFinset ≠ ∅ then include_tables.toFinset
       else all_tables_list.toFinset \ ignore_tables.toFinset) ∧
    get_usable_table_names v ⊆ all_tables_list.toFinset := by
  simp only [sqlDatabaseInit] at h
  split_ifs at h with h1 h2 h3
  all_goals
    cases h
    refine ⟨rfl, ?_⟩
    by_cases hinc : include_tables.toFinset = ∅
    · simp only [get_usable_table_names, hinc, ne_eq, not_true_eq_false, if_false]
      exact Finset.sdiff_subset
    · have hmiss :
          (include_tables.filter (fun n => decide (n ∉ all_tables_list.toFinset))).dedup = [] := by
        by_contra hne
        exact h2 ⟨hinc, hne⟩
      have hsub : include_tables.toFinset ⊆ all_tables_list.toFinset := by
        intro x hx
        rw [List.mem_toFinset] at hx
        have hfil :
            include_tables.filter (fun n => decide (n ∉ all_tables_list.toFinset)) = [] :=
          (List.dedup_eq_nil _).mp hmiss
        have hx2 := List.filter_eq_nil_iff.mp hfil x hx
        simpa using hx2
      simpa [get_usable_table_names, hinc] using hsub

/-- Witness for C9 at a concrete successful construction with a non-empty
ignore set. -/
theorem c9_usable_table_names_witness :
    sqlDatabaseInit ["a", "b", "c"] ["b"] [] 3 false [] 50 = Except.ok c9View ∧
    get_usable_table_names c9View =
      (if ([] : List String).toFinset ≠ ∅ then ([] : List String).toFinset
       else ["a", "b", "c"].toFinset \ ["b"].toFinset) ∧
    get_usable_table_names c9View ⊆ ["a", "b", "c"].toFinset := by
  have h : sqlDatabaseInit ["a", "b", "c"] ["b"] [] 3 false [] 50 = Except.ok c9View := by rfl
  exact ⟨h, (c9_usable_table_names _ _ _ _ _ _ _ _ h).1,
    (c9_usable_table_names _ _ _ _ _ _ _ _ h).2⟩

end SqlDb
